import Mathlib

/-!
Shallow embedding of the Flask backend in src/backend/server.py
(EMD-IoT-System): a SQLite table of sensor readings together with the
four HTTP handlers layered over it.

Modelling conventions:
- A JSON / SQLite value is `JVal`: null, a string, or a number
  (rationals stand in for Python floats and SQLite REAL/INTEGER; the
  measurement columns written by the ingest path hold numbers or null,
  which is all the aggregation claims concern).
- A stored row is `Row`; the table is a `List Row` in insertion order
  (SQLite scans a table in rowid order, and rows are only ever
  appended, so list order = rowid order).  Timestamps are abstract
  time points modelled as integers, compared with the usual order,
  exactly as the text timestamps produced by CURRENT_TIMESTAMP compare
  chronologically.
- The SQL `ORDER BY timestamp DESC` names no tiebreak; SQLite feeds
  the sorter in rowid order and we determinize the sort as the stable
  insertion sort over that scan order.
- HTTP bodies are association lists of string keys and `JVal`s,
  mirroring the Python dict literals; a handler returns its body
  paired with the HTTP status code.
- Python exceptions are modelled with `Except String`: the POST
  handler is given the outcome of `request.get_json()` and of the
  INSERT, and its single `try/except` maps any failure to a 400
  response, as in the source.
-/

/-- A JSON / SQLite dynamic value: null, text, or a number. -/
inductive JVal where
  | null : JVal
  | str : String → JVal
  | num : ℚ → JVal
  deriving DecidableEq, Repr

/-- One persisted sensor reading: the seven columns of the
`sensor_readings` table created by `init_database`. -/
structure Row where
  id : Nat
  timestamp : Int
  device_id : JVal
  temperature : JVal
  humidity : JVal
  gas_analog : JVal
  gas_digital : JVal
  deriving DecidableEq, Repr

/-- An inbound JSON payload: a mapping from keys to values.  A key may
be present with the value null, which is distinct from being absent. -/
def Payload : Type := List (String × JVal)

/-- Python `data.get(k, default)`: the value stored under `k` when the
key is present (even when that value is null), the default otherwise. -/
def pget (data : Payload) (k : String) (default : JVal) : JVal :=
  match List.lookup k data with
  | some v => v
  | none => default

/-- The AUTOINCREMENT id assigned to the next inserted row: one more
than the largest id in the table (ids start at 1). -/
def nextId (t : List Row) : Nat :=
  (t.map Row.id).foldr max 0 + 1

/-- The INSERT in `receive_sensor_data`: the five payload-derived
columns are listed explicitly, `id` and `timestamp` take their column
defaults (AUTOINCREMENT and CURRENT_TIMESTAMP, the latter modelled by
the `now` parameter).  No `timestamp` key of the payload is consulted. -/
def ingestRow (data : Payload) (now : Int) (t : List Row) : Row :=
  { id := nextId t
    timestamp := now
    device_id := pget data "device_id" (JVal.str "unknown")
    temperature := pget data "temperature" JVal.null
    humidity := pget data "humidity" JVal.null
    gas_analog := pget data "gas_analog" JVal.null
    gas_digital := pget data "gas_digital" JVal.null }

/-- The INSERT appends the new row at the end of the table scan. -/
def insertPayload (data : Payload) (now : Int) (t : List Row) : List Row :=
  t ++ [ingestRow data now t]

/-- POST /api/sensor-data.  `getJson` is the outcome of
`request.get_json()` and `write` the outcome of the INSERT/commit; the
handler body is one `try/except`, so either failure yields the same
400 response carrying the exception message.  Returns the new table
state, the response body and the status code. -/
def receive_sensor_data (getJson : Except String Payload)
    (write : Except String Unit) (now : Int) (t : List Row) :
    List Row × (List (String × JVal) × Nat) :=
  match getJson with
  | Except.error e => (t, ([("status", JVal.str "error"), ("message", JVal.str e)], 400))
  | Except.ok data =>
    match write with
    | Except.error e => (t, ([("status", JVal.str "error"), ("message", JVal.str e)], 400))
    | Except.ok _ =>
        (insertPayload data now t,
         ([("status", JVal.str "success"), ("message", JVal.str "Data stored successfully")], 201))

/-- The comparator realised by `ORDER BY timestamp DESC`:
`a` may come no later than `b` iff its timestamp is no smaller. -/
def recentLE (a b : Row) : Prop := b.timestamp ≤ a.timestamp

instance : DecidableRel recentLE := fun _ _ => Int.decLe _ _

/-- `ORDER BY timestamp DESC` over the table scan: a stable sort of
the rows (in rowid order) by descending timestamp. -/
def sortRecent (t : List Row) : List Row :=
  List.insertionSort recentLE t

/-- `ORDER BY timestamp DESC LIMIT ?`: SQLite treats a negative limit
as no limit at all, otherwise returns the first `limit` rows. -/
def listRecent (t : List Row) (limit : Int) : List Row :=
  if limit < 0 then sortRecent t else (sortRecent t).take limit.toNat

/-- Decimal digits to a number, accumulator style; fails on the first
character that is not a digit. -/
def parseDigits : List Char → Nat → Option Nat
  | [], acc => some acc
  | c :: cs, acc =>
      if c.isDigit then parseDigits cs (acc * 10 + (c.toNat - 48)) else none

/-- The Python int conversion applied by the Flask limit parameter:
an optional sign followed by one or more decimal digits; any other
string fails. -/
def parseInt? (s : String) : Option Int :=
  match s.data with
  | [] => none
  | '-' :: cs =>
      if cs = [] then none else (parseDigits cs 0).map (fun n => -(n : Int))
  | '+' :: cs =>
      if cs = [] then none else (parseDigits cs 0).map (fun n => (n : Int))
  | cs => (parseDigits cs 0).map (fun n => (n : Int))

/-- Flask `request.args.get(..., 100, type=int)`: 100 when the query
parameter is absent, and also 100 when the conversion to int fails. -/
def limitOf : Option String → Int
  | none => 100
  | some s => (parseInt? s).getD 100

/-- The response record built for one row by GET /api/sensor-data:
all seven columns, keyed by name. -/
def rowBody (r : Row) : List (String × JVal) :=
  [("id", JVal.num r.id),
   ("timestamp", JVal.num r.timestamp),
   ("device_id", r.device_id),
   ("temperature", r.temperature),
   ("humidity", r.humidity),
   ("gas_analog", r.gas_analog),
   ("gas_digital", r.gas_digital)]

/-- GET /api/sensor-data: parse the limit, read the recent rows and
render each as a record; an empty table yields an empty list with 200. -/
def get_sensor_data (t : List Row) (limitArg : Option String) :
    List (List (String × JVal)) × Nat :=
  ((listRecent t (limitOf limitArg)).map rowBody, 200)

/-- The row selected by `ORDER BY timestamp DESC LIMIT 1`. -/
def latestRow (t : List Row) : Option Row :=
  (sortRecent t).head?

/-- GET /api/latest: the latest row rendered with the five selected
columns (the SELECT names only timestamp, temperature, humidity,
gas_analog, gas_digital), or a 404 "No data available" body. -/
def get_latest (t : List Row) : List (String × JVal) × Nat :=
  match latestRow t with
  | some r =>
      ([("timestamp", JVal.num r.timestamp),
        ("temperature", r.temperature),
        ("humidity", r.humidity),
        ("gas_analog", r.gas_analog),
        ("gas_digital", r.gas_digital)], 200)
  | none => ([("message", JVal.str "No data available")], 404)

/-- The rows whose timestamp falls in the trailing 24 hours from
`now` (the WHERE clause of GET /api/stats); 86400 seconds. -/
def window (t : List Row) (now : Int) : List Row :=
  t.filter (fun r => now - 86400 ≤ r.timestamp)

/-- The numeric value of a column entry, when it is a number; null is
excluded from aggregation, as SQL AVG/MIN/MAX exclude NULL. -/
def toNum? : JVal → Option ℚ
  | JVal.num q => some q
  | _ => none

/-- The non-null numeric values of one measurement column over a set
of rows: column-wise exclusion of nulls. -/
def colVals (f : Row → JVal) (rows : List Row) : List ℚ :=
  rows.filterMap (fun r => toNum? (f r))

/-- SQL AVG: NULL on the empty set, otherwise the mean. -/
def sqlAvg : List ℚ → Option ℚ
  | [] => none
  | l => some (l.sum / l.length)

/-- SQL MIN: NULL on the empty set, otherwise the least value. -/
def sqlMin : List ℚ → Option ℚ
  | [] => none
  | x :: l => some (l.foldl min x)

/-- SQL MAX: NULL on the empty set, otherwise the greatest value. -/
def sqlMax : List ℚ → Option ℚ
  | [] => none
  | x :: l => some (l.foldl max x)

/-- Python round to the nearest integer, halves to the even neighbour. -/
def pyRoundInt (q : ℚ) : Int :=
  if q - ⌊q⌋ < 1 / 2 then ⌊q⌋
  else if 1 / 2 < q - ⌊q⌋ then ⌊q⌋ + 1
  else if ⌊q⌋ % 2 = 0 then ⌊q⌋ else ⌊q⌋ + 1

/-- Python `round(x, 1)`. -/
def pyRound1 (q : ℚ) : ℚ := (pyRoundInt (q * 10) : ℚ) / 10

/-- The Python post-processing `round(x, 1) if x else 0`: a missing
(NULL) aggregate, and also a zero one, renders as 0. -/
def statVal : Option ℚ → ℚ
  | none => 0
  | some v => if v = 0 then 0 else pyRound1 v

/-- The flattened stats response body of GET /api/stats. -/
structure StatsBody where
  total_readings : Nat
  temperature_average : ℚ
  temperature_min : ℚ
  temperature_max : ℚ
  humidity_average : ℚ
  humidity_min : ℚ
  humidity_max : ℚ
  gas_average : ℚ
  gas_max : ℚ
  deriving DecidableEq, Repr

/-- GET /api/stats: one aggregate query over the trailing 24-hour
window, rendered with the `round(x, 1) if x else 0` convention. -/
def get_stats (t : List Row) (now : Int) : StatsBody × Nat :=
  let w := window t now
  let temps := colVals Row.temperature w
  let hums := colVals Row.humidity w
  let gases := colVals Row.gas_analog w
  ({ total_readings := w.length
     temperature_average := statVal (sqlAvg temps)
     temperature_min := statVal (sqlMin temps)
     temperature_max := statVal (sqlMax temps)
     humidity_average := statVal (sqlAvg hums)
     humidity_min := statVal (sqlMin hums)
     humidity_max := statVal (sqlMax hums)
     gas_average := statVal (sqlAvg gases)
     gas_max := statVal (sqlMax gases) }, 200)

/-- The database file as seen by `init_database`: `none` when the
`sensor_readings` table does not exist yet, `some rows` otherwise.
CREATE TABLE IF NOT EXISTS creates an empty table only in the first
case and leaves an existing table untouched. -/
def init_database : Option (List Row) → Option (List Row)
  | none => some []
  | some rows => some rows

/-- A well-formed table state: ids strictly increase along insertion
order, as AUTOINCREMENT guarantees for an append-only table. -/
def WFTable (t : List Row) : Prop :=
  t.Pairwise (fun a b => a.id < b.id)

instance (t : List Row) : Decidable (WFTable t) :=
  List.instDecidablePairwise t

/-! ### Sorting lemmas

The insertion sort used to determinize `ORDER BY timestamp DESC` is
stable: an element inserted into a sorted list passes over every
element strictly above it and stops before the first element it ties
with or beats.  We prove the combined invariant — output pairwise in
the sort order, with original (`s`) order preserved on ties — in one
induction. -/

/-- Inserting `a` into a list that satisfies the combined
order/stability invariant, where `a` is `s`-below every element,
preserves the invariant. -/
theorem pairwise_stable_orderedInsert {α : Type} {r s : α → α → Prop}
    [DecidableRel r]
    (total : ∀ a b, r a b ∨ r b a) (htrans : ∀ {a b c}, r a b → r b c → r a c)
    (a : α) (l : List α)
    (hl : l.Pairwise (fun x y => r x y ∧ (r y x → s x y)))
    (ha : ∀ b ∈ l, s a b) :
    (List.orderedInsert r a l).Pairwise (fun x y => r x y ∧ (r y x → s x y)) := by
  induction l with
  | nil => simp [List.orderedInsert]
  | cons b t ih =>
    rw [List.pairwise_cons] at hl
    obtain ⟨hb, ht⟩ := hl
    rw [List.orderedInsert]
    by_cases h : r a b
    · rw [if_pos h]
      refine List.pairwise_cons.mpr ⟨?_, List.pairwise_cons.mpr ⟨hb, ht⟩⟩
      intro y hy
      rcases List.mem_cons.mp hy with rfl | hyt
      · exact ⟨h, fun _ => ha _ (List.mem_cons_self _ _)⟩
      · exact ⟨htrans h (hb y hyt).1, fun _ => ha _ (List.mem_cons_of_mem _ hyt)⟩
    · rw [if_neg h]
      have hba : r b a := (total a b).resolve_left h
      refine List.pairwise_cons.mpr
        ⟨?_, ih ht (fun x hx => ha _ (List.mem_cons_of_mem _ hx))⟩
      intro y hy
      have hy2 : y ∈ a :: t := (List.perm_orderedInsert r a t).mem_iff.mp hy
      rcases List.mem_cons.mp hy2 with rfl | hyt
      · exact ⟨hba, fun hab => absurd hab h⟩
      · exact hb y hyt

/-- Stability of insertion sort: when the input is pairwise `s`-sorted
and `r` is a total preorder, the output is pairwise in the sort order
`r`, with `s` deciding every tie. -/
theorem pairwise_stable_insertionSort {α : Type} {r s : α → α → Prop}
    [DecidableRel r]
    (total : ∀ a b, r a b ∨ r b a) (htrans : ∀ {a b c}, r a b → r b c → r a c)
    (l : List α) (hl : l.Pairwise s) :
    (List.insertionSort r l).Pairwise (fun x y => r x y ∧ (r y x → s x y)) := by
  induction l with
  | nil => simp [List.insertionSort]
  | cons a t ih =>
    rw [List.pairwise_cons] at hl
    rw [List.insertionSort]
    exact pairwise_stable_orderedInsert total htrans a _ (ih hl.2)
      (fun b hb => hl.1 b ((List.perm_insertionSort r t).mem_iff.mp hb))

/-- `sortRecent` permutes the table. -/
theorem sortRecent_perm (t : List Row) : (sortRecent t).Perm t :=
  List.perm_insertionSort recentLE t

/-- `sortRecent` is ordered by timestamp descending, and rows with
equal timestamps keep their relative order from the table scan. -/
theorem sortRecent_pairwise (t : List Row) (hwf : WFTable t) :
    (sortRecent t).Pairwise
      (fun a b => b.timestamp ≤ a.timestamp ∧ (a.timestamp ≤ b.timestamp → a.id < b.id)) := by
  have h := pairwise_stable_insertionSort (r := recentLE)
    (s := fun a b : Row => a.id < b.id)
    (fun a b => Int.le_total b.timestamp a.timestamp)
    (fun hab hbc => le_trans hbc hab) t hwf
  exact h.imp (fun hxy => ⟨hxy.1, hxy.2⟩)

/-! ### C1: ordering of QueryRecent -/

/-- A row with every nullable column null, timestamp 5, id 1. -/
def tieRowA : Row :=
  { id := 1, timestamp := 5, device_id := JVal.null, temperature := JVal.null,
    humidity := JVal.null, gas_analog := JVal.null, gas_digital := JVal.null }

/-- The same reading inserted again one position later: id 2, equal timestamp. -/
def tieRowB : Row := { tieRowA with id := 2 }

/-- C1, counterexample: the SQL orders by timestamp alone, so two rows
with equal timestamps come back in scan (ascending id) order, not in
the descending-id order the claim states: on the well-formed table
[tieRowA, tieRowB] with limit 2, the output violates the claimed
strict order (timestamp descending, descending id on ties). -/
theorem listRecent_desc_id_tiebreak_cex :
    WFTable [tieRowA, tieRowB] ∧ (0 : Int) < 2 ∧
    ¬ (listRecent [tieRowA, tieRowB] 2).Pairwise
        (fun a b => b.timestamp < a.timestamp ∨
          (a.timestamp = b.timestamp ∧ b.id < a.id)) := by
  decide

/-- C1, amended: for every well-formed table with N rows and every
positive limit, QueryRecent returns exactly min(limit, N) rows ordered
by timestamp descending, rows with equal timestamps appearing in
ascending id (insertion) order. -/
theorem listRecent_count_order (t : List Row) (limit : Int)
    (hwf : WFTable t) (hpos : 0 < limit) :
    (listRecent t limit).length = min limit.toNat t.length ∧
    (listRecent t limit).Pairwise
      (fun a b => b.timestamp ≤ a.timestamp ∧
        (a.timestamp = b.timestamp → a.id < b.id)) := by
  have hnot : ¬ limit < 0 := by omega
  constructor
  · rw [listRecent, if_neg hnot, List.length_take, (sortRecent_perm t).length_eq]
  · have hp : (sortRecent t).Pairwise
        (fun a b => b.timestamp ≤ a.timestamp ∧
          (a.timestamp = b.timestamp → a.id < b.id)) :=
      (sortRecent_pairwise t hwf).imp
        (fun h => ⟨h.1, fun he => h.2 (le_of_eq he)⟩)
    rw [listRecent, if_neg hnot]
    exact hp.sublist (List.take_sublist _ _)

/-- C1 witness: the amended statement evaluated on a concrete
two-row table with limit 1. -/
theorem listRecent_count_order_witness :
    WFTable [tieRowA, tieRowB] ∧ (0 : Int) < 1 ∧
    ((listRecent [tieRowA, tieRowB] 1).length =
        min (1 : Int).toNat [tieRowA, tieRowB].length ∧
     (listRecent [tieRowA, tieRowB] 1).Pairwise
       (fun a b => b.timestamp ≤ a.timestamp ∧
         (a.timestamp = b.timestamp → a.id < b.id))) :=
  ⟨by decide, by decide, listRecent_count_order [tieRowA, tieRowB] 1 (by decide) (by decide)⟩

/-! ### C7: idempotent initialization -/

/-- C7: CREATE TABLE IF NOT EXISTS makes `init_database` idempotent —
a second call changes nothing, and initializing over an existing table
keeps every stored row (the model is total, so both calls succeed). -/
theorem init_database_idempotent (db : Option (List Row)) (rows : List Row) :
    init_database (init_database db) = init_database db ∧
    init_database (some rows) = some rows := by
  cases db <;> simp [init_database]

/-! ### C8: default limit and empty results -/

/-- C8: an absent limit parameter and a non-numeric one both fall back
to 100, and GET /api/sensor-data on the empty table returns the empty
list with status 200. -/
theorem get_sensor_data_default_limit (s : String) (arg : Option String)
    (h : parseInt? s = none) :
    limitOf none = 100 ∧ limitOf (some s) = 100 ∧
    get_sensor_data [] arg = ([], 200) := by
  refine ⟨rfl, ?_, ?_⟩
  · simp [limitOf, h]
  · simp [get_sensor_data, listRecent, sortRecent, List.insertionSort]

/-- C8 witness: the conversion of the string abc fails, so the limit
falls back to 100; the empty table yields ([], 200). -/
theorem get_sensor_data_default_limit_witness :
    parseInt? "abc" = none ∧
    (limitOf none = 100 ∧ limitOf (some "abc") = 100 ∧
     get_sensor_data [] (some "abc") = ([], 200)) :=
  ⟨rfl, get_sensor_data_default_limit "abc" (some "abc") rfl⟩

/-! ### C6: error statuses of the POST handler -/

/-- C6, counterexample: a storage failure during ingest is answered
with status 400 — a client-error status, not a 5xx server error. -/
theorem ingest_storage_error_cex :
    (receive_sensor_data (Except.ok []) (Except.error "disk error") 0 []).2.2 = 400 ∧
    ¬ 500 ≤ (receive_sensor_data (Except.ok []) (Except.error "disk error") 0 []).2.2 := by
  decide

/-- C6, amended: the single try/except of the POST handler maps every
failure — an unparseable payload and a failed storage write alike — to
the same status 400 with a structured body carrying the error marker
and the exception message. -/
theorem ingest_error_responses (e : String) (data : Payload)
    (w : Except String Unit) (now : Int) (t : List Row) :
    (receive_sensor_data (Except.error e) w now t).2 =
      ([("status", JVal.str "error"), ("message", JVal.str e)], 400) ∧
    (receive_sensor_data (Except.ok data) (Except.error e) now t).2 =
      ([("status", JVal.str "error"), ("message", JVal.str e)], 400) :=
  ⟨rfl, rfl⟩

/-! ### C4: latest on empty and singleton tables -/

/-- C4: GET /api/latest on the empty table answers 404 with the
no-data message (a distinct not-found body, not an error body), and on
a table holding exactly one reading it returns that reading, rendered
with the five selected columns, with status 200. -/
theorem get_latest_empty_and_singleton (r : Row) :
    get_latest [] = ([("message", JVal.str "No data available")], 404) ∧
    get_latest [r] =
      ([("timestamp", JVal.num r.timestamp),
        ("temperature", r.temperature),
        ("humidity", r.humidity),
        ("gas_analog", r.gas_analog),
        ("gas_digital", r.gas_digital)], 200) :=
  ⟨rfl, rfl⟩

/-! ### C5: field names of the latest response -/

/-- C5, counterexample: for the one-row table [tieRowA] the success
response of GET /api/latest carries neither an id key nor a device_id
key — the SELECT names only five of the seven columns. -/
theorem get_latest_missing_fields_cex :
    (get_latest [tieRowA]).2 = 200 ∧
    ¬ "id" ∈ (get_latest [tieRowA]).1.map Prod.fst ∧
    ¬ "device_id" ∈ (get_latest [tieRowA]).1.map Prod.fst := by
  decide

/-- C5, amended: for every non-empty table the success response of
GET /api/latest has exactly the five keys timestamp, temperature,
humidity, gas_analog and gas_digital, in that order; id and device_id
are omitted. -/
theorem get_latest_field_names (t : List Row) (hne : t ≠ []) :
    (get_latest t).2 = 200 ∧
    (get_latest t).1.map Prod.fst =
      ["timestamp", "temperature", "humidity", "gas_analog", "gas_digital"] := by
  rcases hs : sortRecent t with _ | ⟨r, rest⟩
  · exfalso
    apply hne
    have hlen := (sortRecent_perm t).length_eq
    rw [hs] at hlen
    exact List.length_eq_zero.mp hlen.symm
  · rw [get_latest, latestRow, hs]
    exact ⟨rfl, rfl⟩

/-- C5 witness: the amended statement on the one-row table. -/
theorem get_latest_field_names_witness :
    [tieRowA] ≠ ([] : List Row) ∧
    ((get_latest [tieRowA]).2 = 200 ∧
     (get_latest [tieRowA]).1.map Prod.fst =
       ["timestamp", "temperature", "humidity", "gas_analog", "gas_digital"]) :=
  ⟨by decide, get_latest_field_names [tieRowA] (by decide)⟩

/-! ### C2: windowed aggregation and null handling -/

/-- A measurement column that is null on every row of a set of rows
contributes no values to its aggregation. -/
theorem colVals_eq_nil (f : Row → JVal) (rows : List Row)
    (h : ∀ r ∈ rows, f r = JVal.null) : colVals f rows = [] := by
  rw [colVals, List.filterMap_eq_nil_iff]
  intro r hr
  rw [h r hr]
  rfl

/-- C2: GET /api/stats always succeeds with status 200; the reported
count is the number of rows in the trailing 24-hour window (also when
the table is empty); and each measurement column whose values in the
window are all null reports average/min/max equal to 0, while the
other columns are aggregated from their own non-null values — nulls
are excluded column-wise, never by dropping a whole row. -/
theorem get_stats_null_columns (t : List Row) (now : Int) :
    (get_stats t now).2 = 200 ∧
    (get_stats t now).1.total_readings = (window t now).length ∧
    ((∀ r ∈ window t now, r.temperature = JVal.null) →
       (get_stats t now).1.temperature_average = 0 ∧
       (get_stats t now).1.temperature_min = 0 ∧
       (get_stats t now).1.temperature_max = 0) ∧
    ((∀ r ∈ window t now, r.humidity = JVal.null) →
       (get_stats t now).1.humidity_average = 0 ∧
       (get_stats t now).1.humidity_min = 0 ∧
       (get_stats t now).1.humidity_max = 0) ∧
    ((∀ r ∈ window t now, r.gas_analog = JVal.null) →
       (get_stats t now).1.gas_average = 0 ∧
       (get_stats t now).1.gas_max = 0) := by
  refine ⟨rfl, rfl, fun h => ?_, fun h => ?_, fun h => ?_⟩ <;>
    simp [get_stats, colVals_eq_nil _ _ h, sqlAvg, sqlMin, sqlMax, statVal]

/-- C2 witness: a one-row table whose only reading has every
measurement null and lies inside the window: the count is 1 (positive)
and every reported aggregate is 0, with success status. -/
theorem get_stats_null_columns_witness :
    (get_stats [tieRowA] 5).2 = 200 ∧
    (get_stats [tieRowA] 5).1.total_readings = 1 ∧
    (get_stats [tieRowA] 5).1.temperature_average = 0 ∧
    (get_stats [tieRowA] 5).1.temperature_min = 0 ∧
    (get_stats [tieRowA] 5).1.temperature_max = 0 ∧
    (get_stats [tieRowA] 5).1.humidity_average = 0 ∧
    (get_stats [tieRowA] 5).1.humidity_min = 0 ∧
    (get_stats [tieRowA] 5).1.humidity_max = 0 ∧
    (get_stats [tieRowA] 5).1.gas_average = 0 ∧
    (get_stats [tieRowA] 5).1.gas_max = 0 := by
  have h := get_stats_null_columns [tieRowA] 5
  obtain ⟨hs, hc, ht, hh, hg⟩ := h
  have ht2 := ht (by decide)
  have hh2 := hh (by decide)
  have hg2 := hg (by decide)
  refine ⟨hs, ?_, ht2.1, ht2.2.1, ht2.2.2, hh2.1, hh2.2.1, hh2.2.2, hg2.1, hg2.2⟩
  rw [hc]
  decide

/-! ### C9: explicit null device_id -/

/-- C9: the "unknown" fallback of `data.get` fires only when the
device_id key is absent; a payload carrying the key with value null
ingests successfully (201) and stores null as the device_id. -/
theorem ingest_null_device_id (data : Payload) (now : Int) (t : List Row)
    (h : List.lookup "device_id" data = some JVal.null) :
    (receive_sensor_data (Except.ok data) (Except.ok ()) now t).2.2 = 201 ∧
    ∃ r, (receive_sensor_data (Except.ok data) (Except.ok ()) now t).1 = t ++ [r] ∧
      r.device_id = JVal.null := by
  refine ⟨rfl, ⟨_, rfl, ?_⟩⟩
  show pget data "device_id" (JVal.str "unknown") = JVal.null
  rw [pget, h]

/-- C9 witness: the payload whose only key is a null device_id. -/
theorem ingest_null_device_id_witness :
    List.lookup "device_id" ([("device_id", JVal.null)] : Payload) = some JVal.null ∧
    ((receive_sensor_data (Except.ok [("device_id", JVal.null)]) (Except.ok ()) 0 []).2.2 = 201 ∧
     ∃ r, (receive_sensor_data (Except.ok [("device_id", JVal.null)]) (Except.ok ()) 0 []).1 =
        [] ++ [r] ∧ r.device_id = JVal.null) :=
  ⟨rfl, ingest_null_device_id [("device_id", JVal.null)] 0 [] rfl⟩

/-! ### C10: payload timestamps are ignored -/

/-- Payloads agreeing on one key give `data.get` the same value there. -/
theorem pget_congr (d1 d2 : Payload) (k : String) (dflt : JVal)
    (h : List.lookup k d1 = List.lookup k d2) :
    pget d1 k dflt = pget d2 k dflt := by
  rw [pget, pget, h]

/-- C10: ingest reads only the five sensor keys, so two payloads that
agree on those — in particular a payload with a timestamp key and the
same payload without it — insert identical rows; and the stored
timestamp of the appended row is always the server-side insertion
time, never taken from the payload. -/
theorem ingest_ignores_payload_timestamp (d1 d2 : Payload) (now : Int) (t : List Row)
    (h : ∀ k ∈ (["device_id", "temperature", "humidity",
        "gas_analog", "gas_digital"] : List String),
      List.lookup k d1 = List.lookup k d2) :
    insertPayload d1 now t = insertPayload d2 now t ∧
    ∃ r, insertPayload d1 now t = t ++ [r] ∧ r.timestamp = now := by
  constructor
  · have he : ingestRow d1 now t = ingestRow d2 now t := by
      rw [ingestRow, ingestRow,
        pget_congr d1 d2 "device_id" _ (h _ (by simp)),
        pget_congr d1 d2 "temperature" _ (h _ (by simp)),
        pget_congr d1 d2 "humidity" _ (h _ (by simp)),
        pget_congr d1 d2 "gas_analog" _ (h _ (by simp)),
        pget_congr d1 d2 "gas_digital" _ (h _ (by simp))]
    rw [insertPayload, insertPayload, he]
  · exact ⟨_, rfl, rfl⟩

/-- C10 witness: a payload consisting of exactly one timestamp key
inserts the same row as the empty payload, stamped with the server
time 7. -/
theorem ingest_ignores_payload_timestamp_witness :
    (∀ k ∈ (["device_id", "temperature", "humidity",
        "gas_analog", "gas_digital"] : List String),
      List.lookup k ([("timestamp", JVal.num 999)] : Payload) =
        List.lookup k ([] : Payload)) ∧
    (insertPayload [("timestamp", JVal.num 999)] 7 [] = insertPayload [] 7 [] ∧
     ∃ r, insertPayload [("timestamp", JVal.num 999)] 7 [] = [] ++ [r] ∧
       r.timestamp = 7) :=
  ⟨by decide, ingest_ignores_payload_timestamp [("timestamp", JVal.num 999)] [] 7 [] (by decide)⟩

/-! ### C3: ingest / query-recent round trip -/

/-- Appending a row whose timestamp strictly exceeds that of every
table row puts it first in the sorted order. -/
theorem sortRecent_append_newest (t : List Row) (x : Row)
    (hts : ∀ r ∈ t, r.timestamp < x.timestamp) :
    ∃ rest, sortRecent (t ++ [x]) = x :: rest := by
  have htriv : ∀ l : List Row, l.Pairwise fun _ _ => True := by
    intro l
    induction l with
    | nil => exact List.Pairwise.nil
    | cons a l ih => exact List.Pairwise.cons (fun _ _ => trivial) ih
  have hsorted : (sortRecent (t ++ [x])).Pairwise recentLE := by
    have hp := pairwise_stable_insertionSort (r := recentLE)
      (s := fun _ _ : Row => True)
      (fun a b => Int.le_total b.timestamp a.timestamp)
      (fun hab hbc => le_trans hbc hab) (t ++ [x]) (htriv _)
    exact hp.imp (fun hx => hx.1)
  have hperm := sortRecent_perm (t ++ [x])
  rcases hs : sortRecent (t ++ [x]) with _ | ⟨h, rest⟩
  · rw [hs] at hperm
    have hlen := hperm.length_eq
    simp at hlen
  · rw [hs] at hperm hsorted
    have hh : h ∈ t ++ [x] := hperm.mem_iff.mp (List.mem_cons_self _ _)
    rcases List.mem_append.mp hh with hht | hhx
    · exfalso
      have hxmem : x ∈ h :: rest :=
        hperm.mem_iff.mpr (List.mem_append_right _ (List.mem_singleton_self x))
      rcases List.mem_cons.mp hxmem with hxh | hxrest
      · exact absurd (hts h hht) (by rw [hxh]; exact lt_irrefl _)
      · have hle : recentLE h x := (List.pairwise_cons.mp hsorted).1 x hxrest
        exact not_lt.mpr hle (hts h hht)
    · exact ⟨rest, by rw [List.mem_singleton.mp hhx]⟩

/-- The record of a row holds its device_id under that key. -/
theorem lookup_rowBody_device_id (r : Row) :
    List.lookup "device_id" (rowBody r) = some r.device_id := rfl

/-- The record of a row holds its temperature under that key. -/
theorem lookup_rowBody_temperature (r : Row) :
    List.lookup "temperature" (rowBody r) = some r.temperature := rfl

/-- The record of a row holds its humidity under that key. -/
theorem lookup_rowBody_humidity (r : Row) :
    List.lookup "humidity" (rowBody r) = some r.humidity := rfl

/-- The record of a row holds its gas_analog under that key. -/
theorem lookup_rowBody_gas_analog (r : Row) :
    List.lookup "gas_analog" (rowBody r) = some r.gas_analog := rfl

/-- The record of a row holds its gas_digital under that key. -/
theorem lookup_rowBody_gas_digital (r : Row) :
    List.lookup "gas_digital" (rowBody r) = some r.gas_digital := rfl

/-- C3, amended: ingesting a payload that carries all five sensor keys
into a table whose rows all have strictly earlier timestamps, then
calling QueryRecent(1), returns exactly the record of the new reading,
every ingested value unchanged. -/
theorem ingest_roundtrip (data : Payload) (now : Int) (t : List Row)
    (dv tv hv gav gdv : JVal)
    (h1 : List.lookup "device_id" data = some dv)
    (h2 : List.lookup "temperature" data = some tv)
    (h3 : List.lookup "humidity" data = some hv)
    (h4 : List.lookup "gas_analog" data = some gav)
    (h5 : List.lookup "gas_digital" data = some gdv)
    (hts : ∀ r ∈ t, r.timestamp < now) :
    ∃ rec,
      (get_sensor_data (receive_sensor_data (Except.ok data) (Except.ok ()) now t).1
        (some "1")).1 = [rec] ∧
      List.lookup "device_id" rec = some dv ∧
      List.lookup "temperature" rec = some tv ∧
      List.lookup "humidity" rec = some hv ∧
      List.lookup "gas_analog" rec = some gav ∧
      List.lookup "gas_digital" rec = some gdv := by
  obtain ⟨rest, hsort⟩ := sortRecent_append_newest t (ingestRow data now t) hts
  refine ⟨rowBody (ingestRow data now t), ?_, ?_, ?_, ?_, ?_, ?_⟩
  · show (listRecent (t ++ [ingestRow data now t]) (limitOf (some "1"))).map rowBody = _
    rw [show limitOf (some "1") = (1 : Int) from rfl]
    simp only [listRecent]
    rw [if_neg (by norm_num), hsort]
    rfl
  · rw [lookup_rowBody_device_id]
    show some (pget data "device_id" (JVal.str "unknown")) = some dv
    rw [pget, h1]
  · rw [lookup_rowBody_temperature]
    show some (pget data "temperature" JVal.null) = some tv
    rw [pget, h2]
  · rw [lookup_rowBody_humidity]
    show some (pget data "humidity" JVal.null) = some hv
    rw [pget, h3]
  · rw [lookup_rowBody_gas_analog]
    show some (pget data "gas_analog" JVal.null) = some gav
    rw [pget, h4]
  · rw [lookup_rowBody_gas_digital]
    show some (pget data "gas_digital" JVal.null) = some gdv
    rw [pget, h5]

/-- The scenario payload of the spec: all five sensor keys known. -/
def demoPayload : Payload :=
  [("device_id", JVal.str "esp1"), ("temperature", JVal.num 22.5),
   ("humidity", JVal.num 60), ("gas_analog", JVal.num 150),
   ("gas_digital", JVal.num 0)]

/-- C3, counterexample: on a table already holding a row with the same
timestamp as the insertion time, QueryRecent(1) right after the ingest
returns that older row — the SQL orders by timestamp alone and the tie
goes to the earlier row — so the read-back device_id is null rather
than the ingested esp1. -/
theorem ingest_roundtrip_cex :
    List.lookup "device_id" demoPayload = some (JVal.str "esp1") ∧
    (get_sensor_data (receive_sensor_data (Except.ok demoPayload) (Except.ok ()) 5 [tieRowA]).1
      (some "1")).1 = [rowBody tieRowA] ∧
    List.lookup "device_id" (rowBody tieRowA) = some JVal.null := by
  decide

/-- C3 witness: the amended statement on the empty table with the
scenario payload at server time 3. -/
theorem ingest_roundtrip_witness :
    (∀ r ∈ ([] : List Row), r.timestamp < 3) ∧
    (∃ rec,
      (get_sensor_data (receive_sensor_data (Except.ok demoPayload) (Except.ok ()) 3 []).1
        (some "1")).1 = [rec] ∧
      List.lookup "device_id" rec = some (JVal.str "esp1") ∧
      List.lookup "temperature" rec = some (JVal.num 22.5) ∧
      List.lookup "humidity" rec = some (JVal.num 60) ∧
      List.lookup "gas_analog" rec = some (JVal.num 150) ∧
      List.lookup "gas_digital" rec = some (JVal.num 0)) :=
  ⟨by simp, ingest_roundtrip demoPayload 3 [] _ _ _ _ _ rfl rfl rfl rfl rfl (by simp)⟩
